import Mathlib

/-!
Verification of the bootstrap/connectivity sequence of the xxdk examples
repository (file `restSingleUseServer/main.go`, which contains two program
variants: variant A, the single-use REST server, and variant B, the
direct-channel sender from the getting-started guide).

The two `main` functions are shallowly embedded as trace-producing
functions.  External collaborators (filesystem, the xxdk library, the
network) are modelled by an environment record `Env` giving the outcome of
every external call; each run maps an environment to the sequence of
observable events (`Event`) the program performs, in program order, cut off
at the first fatal panic.  The buffered health channel consumed by
`waitUntilConnected` is modelled as the finite list of boolean values
dequeued before the timeout would fire; an exhausted list means the timer
fires next, which the code treats as a fatal timeout.
-/

/-- Sites at which the programs call `jww.FATAL.Panicf`, used to label the
terminal panic event of a trace. -/
inductive Stage where
  | readCert
  | download
  | newCmix
  | loadCmix
  | makeIdentity
  | storeIdentity
  | login
  | dhKey
  | follower
  | timeout
  | readContact
  | unmarshalContact
  | connectPeer
  | registerListener
deriving DecidableEq

/-- Observable events of the two programs, in the order the source performs
them.  Events carry the data that matters to the claims: the bytes handed to
state initialization, the identity-storage key used for load and store, the
health values logged by the wait loop, and the values reported by the final
send log. -/
inductive Event where
  | statCheck (present : Bool)
  | readNdf
  | logNdfMissing
  | readCert
  | downloadNdf
  | newCmix (ndf : List Nat)
  | loadCmix
  | loadIdentity (key : String)
  | makeIdentity
  | storeIdentity (key : String)
  | login
  | writeContact
  | unmarshalDhKey
  | newServer
  | startFollower
  | printFollowerErr
  | addHealthCallback
  | logNetworkStatus (status : Bool)
  | connectedOk
  | readServerContact
  | unmarshalContact
  | connectPeer
  | registerListener
  | sendMessage
  | printSendErr
  | logSent (roundIDs msgID ts : Nat)
  | block
  | panic (st : Stage)
deriving DecidableEq

/-- Outcomes of every external call the two programs make.  `none` on an
`Option` field means the call returned an error (for reads, with no bytes);
a `false` on a `Bool` field means the call returned an error.
`healthEvents` is the list of boolean health values delivered on the
buffered `connected` channel before the 30-second timer would fire.
`sendRet` is the tuple `(roundIDs, messageID, timeSent)` returned by
`SendE2E` (opaque values), and `sendOk` whether that call succeeded. -/
structure Env where
  ndfLocal : Option (List Nat)
  certRead : Option (List Nat)
  download : Option (List Nat)
  newCmixOk : Bool
  loadCmixOk : Bool
  loadIdentityOk : Bool
  makeIdentityOk : Bool
  storeIdentityOk : Bool
  loginOk : Bool
  dhUnmarshalOk : Bool
  startFollowerOk : Bool
  healthEvents : List Bool
  readContact : Option (List Nat)
  unmarshalOk : Bool
  connectOk : Bool
  registerOk : Bool
  sendRet : Nat × Nat × Nat
  sendOk : Bool

/-- The constant storage key both variants use for the reception identity
(`identityStorageKey := "identityStorageKey"` in the source). -/
def identityStorageKey : String := "identityStorageKey"

/-- Result of the `waitUntilConnected` loop on the queue of health values
dequeued before the timeout: `true` means the loop exited because a `true`
was received, `false` means the values ran out and the timer fired (the
code panics in that case).  Mirrors the `for !isConnected` / `select` loop
of both variants. -/
def waitUntilConnected : List Bool → Bool
  | [] => false
  | b :: rest => if b then true else waitUntilConnected rest

/-- Trace of the `waitUntilConnected` loop: each dequeued value is logged
(`jww.INFO.Printf("Network Status: %v", isConnected)`); a dequeued `true`
ends the loop successfully (`connectedOk`), exhausting the queue lets the
timer fire and the loop panics with the timeout message. -/
def waitTrace : List Bool → List Event
  | [] => [Event.panic Stage.timeout]
  | b :: rest =>
      Event.logNetworkStatus b ::
        (if b then [Event.connectedOk] else waitTrace rest)

/-- The network-definition acquisition block shared by both variants
(read `ndfPath`; if that read errors log an INFO line; if no bytes were
obtained read the certificate (panic on error) and download-and-verify the
definition (panic on error)).  Returns the trace of the block and the
definition bytes it produced, `none` when it panicked. -/
def resolveNdf (e : Env) : List Event × Option (List Nat) :=
  match e.ndfLocal with
  | some b => ([Event.readNdf], some b)
  | none =>
      match e.certRead with
      | none =>
          ([Event.readNdf, Event.logNdfMissing, Event.readCert,
            Event.panic Stage.readCert], none)
      | some _ =>
          match e.download with
          | none =>
              ([Event.readNdf, Event.logNdfMissing, Event.readCert,
                Event.downloadNdf, Event.panic Stage.download], none)
          | some b =>
              ([Event.readNdf, Event.logNdfMissing, Event.readCert,
                Event.downloadNdf], some b)

/-- The reception-identity block shared by both variants: try
`LoadReceptionIdentity(identityStorageKey, ...)`; on error call
`MakeReceptionIdentity` (panic on error) and then
`StoreReceptionIdentity(identityStorageKey, ...)` (panic on error).
Returns the trace and whether the block completed without panicking. -/
def identityTrace (e : Env) : List Event × Bool :=
  if e.loadIdentityOk then
    ([Event.loadIdentity identityStorageKey], true)
  else if e.makeIdentityOk then
    (if e.storeIdentityOk then
      ([Event.loadIdentity identityStorageKey, Event.makeIdentity,
        Event.storeIdentity identityStorageKey], true)
     else
      ([Event.loadIdentity identityStorageKey, Event.makeIdentity,
        Event.storeIdentity identityStorageKey,
        Event.panic Stage.storeIdentity], false))
  else
    ([Event.loadIdentity identityStorageKey, Event.makeIdentity,
      Event.panic Stage.makeIdentity], false)

/-- Variant A (single-use REST server) after the state-existence block:
`LoadCmix`, identity block, `Login`, `writeContact`, unmarshal the DH
private key, `single.NewServer`, `StartNetworkFollower` (panic on error),
`AddHealthCallback`, `waitUntilConnected`, then `select {}` (block). -/
def afterStateA (e : Env) : List Event :=
  if e.loadCmixOk then
    Event.loadCmix ::
      ((identityTrace e).1 ++
        if (identityTrace e).2 then
          if e.loginOk then
            Event.login :: Event.writeContact ::
              (if e.dhUnmarshalOk then
                Event.unmarshalDhKey :: Event.newServer ::
                  (if e.startFollowerOk then
                    Event.startFollower :: Event.addHealthCallback ::
                      (waitTrace e.healthEvents ++
                        if waitUntilConnected e.healthEvents then
                          [Event.block]
                        else [])
                  else [Event.startFollower, Event.panic Stage.follower])
              else [Event.unmarshalDhKey, Event.panic Stage.dhKey])
          else [Event.login, Event.panic Stage.login]
        else [])
  else [Event.loadCmix, Event.panic Stage.loadCmix]

/-- Variant B after the connectivity wait succeeded: read the server
contact file (panic on error), `contact.Unmarshal` (panic on error),
`connect.Connect` (panic on error), `RegisterListener` (panic on error),
`SendE2E`; a send error is only printed (`fmt.Printf`), and the success log
line `jww.INFO.Printf("Message %v sent in RoundIDs: %+v at %v", ...)` runs
unconditionally with the values `SendE2E` returned, after which the program
blocks on `select {}`. -/
def postConnectB (e : Env) : List Event :=
  match e.readContact with
  | none => [Event.readServerContact, Event.panic Stage.readContact]
  | some _ =>
      Event.readServerContact ::
        if e.unmarshalOk then
          Event.unmarshalContact ::
            (if e.connectOk then
              Event.connectPeer ::
                (if e.registerOk then
                  Event.registerListener :: Event.sendMessage ::
                    ((if e.sendOk then [] else [Event.printSendErr]) ++
                      [Event.logSent e.sendRet.1 e.sendRet.2.1 e.sendRet.2.2,
                       Event.block])
                else [Event.registerListener,
                      Event.panic Stage.registerListener])
            else [Event.connectPeer, Event.panic Stage.connectPeer])
        else [Event.unmarshalContact, Event.panic Stage.unmarshalContact]

/-- Variant B (direct-channel sender) after the state-existence block:
`LoadCmix`, identity block, `Login`, then `StartNetworkFollower` whose
error is only printed with `fmt.Printf` (execution continues either way),
`AddHealthCallback`, `waitUntilConnected`, then the post-connect block. -/
def afterStateB (e : Env) : List Event :=
  if e.loadCmixOk then
    Event.loadCmix ::
      ((identityTrace e).1 ++
        if (identityTrace e).2 then
          if e.loginOk then
            Event.login ::
              ((if e.startFollowerOk then [Event.startFollower]
                else [Event.startFollower, Event.printFollowerErr]) ++
                (Event.addHealthCallback ::
                  (waitTrace e.healthEvents ++
                    if waitUntilConnected e.healthEvents then
                      postConnectB e
                    else [])))
          else [Event.login, Event.panic Stage.login]
        else [])
  else [Event.loadCmix, Event.panic Stage.loadCmix]

/-- Variant A `main`: check whether the state path exists; if absent run
the network-definition block and `NewCmix` (panic on error), then continue
with `afterStateA`.  Returns whether persisted state exists afterwards and
the trace. -/
def runA (stateExists : Bool) (e : Env) : Bool × List Event :=
  if stateExists then
    (true, Event.statCheck true :: afterStateA e)
  else
    match (resolveNdf e).2 with
    | none => (false, Event.statCheck false :: (resolveNdf e).1)
    | some ndf =>
        if e.newCmixOk then
          (true, Event.statCheck false ::
            ((resolveNdf e).1 ++ Event.newCmix ndf :: afterStateA e))
        else
          (false, Event.statCheck false ::
            ((resolveNdf e).1 ++
              [Event.newCmix ndf, Event.panic Stage.newCmix]))

/-- Variant B `main`: identical state-existence and initialization block,
then `afterStateB`. -/
def runB (stateExists : Bool) (e : Env) : Bool × List Event :=
  if stateExists then
    (true, Event.statCheck true :: afterStateB e)
  else
    match (resolveNdf e).2 with
    | none => (false, Event.statCheck false :: (resolveNdf e).1)
    | some ndf =>
        if e.newCmixOk then
          (true, Event.statCheck false ::
            ((resolveNdf e).1 ++ Event.newCmix ndf :: afterStateB e))
        else
          (false, Event.statCheck false ::
            ((resolveNdf e).1 ++
              [Event.newCmix ndf, Event.panic Stage.newCmix]))

/-- Modelled from the spec: the `writeContact` helper lives in the
repository's shared utils file, which is not under src/; per the spec it
writes the serialized contact descriptor to the contact file path,
replacing whatever contents were previously stored there. -/
def writeContactFile (_prev : Option (List Nat)) (c : List Nat) :
    Option (List Nat) :=
  some c

/-- A fully successful environment used to build concrete runs. -/
def envOk : Env :=
  { ndfLocal := some [7]
    certRead := some [1]
    download := some [2]
    newCmixOk := true
    loadCmixOk := true
    loadIdentityOk := true
    makeIdentityOk := true
    storeIdentityOk := true
    loginOk := true
    dhUnmarshalOk := true
    startFollowerOk := true
    healthEvents := [true]
    readContact := some [3]
    unmarshalOk := true
    connectOk := true
    registerOk := true
    sendRet := (0, 0, 0)
    sendOk := true }

/-- Events that mark the gate resolving and the two post-connect actions,
used to state ordering facts about a run. -/
def isGateEvt (x : Event) : Bool :=
  x == Event.newServer || x == Event.connectedOk ||
    x == Event.connectPeer || x == Event.sendMessage

/-- Events relevant to the contact-file claim: login, the contact write,
the follower start and the gate resolution. -/
def isC9Evt (x : Event) : Bool :=
  x == Event.login || x == Event.writeContact ||
    x == Event.startFollower || x == Event.connectedOk

/-- State-initialization events (`NewCmix` calls, with the bytes used). -/
def isInit : Event → Bool
  | Event.newCmix _ => true
  | _ => false

/-- Send events (`SendE2E` calls). -/
def isSendEvt : Event → Bool
  | Event.sendMessage => true
  | _ => false

/-- Events that can occur inside the network-definition block. -/
def preStateEvt : Event → Bool
  | Event.readNdf => true
  | Event.logNdfMissing => true
  | Event.readCert => true
  | Event.downloadNdf => true
  | Event.panic Stage.readCert => true
  | Event.panic Stage.download => true
  | _ => false

/-- Events that can occur from the `LoadCmix` call onwards; in particular
no state-existence check, no network-definition acquisition and no state
initialization happens after that point. -/
def postLoadEvt : Event → Bool
  | Event.statCheck _ => false
  | Event.readNdf => false
  | Event.logNdfMissing => false
  | Event.readCert => false
  | Event.downloadNdf => false
  | Event.newCmix _ => false
  | Event.panic Stage.readCert => false
  | Event.panic Stage.download => false
  | Event.panic Stage.newCmix => false
  | _ => true

/-- Environment in which every external call succeeds but no health value
is ever delivered, so the connectivity gate times out. -/
def envNoHealth : Env := { envOk with healthEvents := [] }

/-- Events that can occur inside the reception-identity block. -/
def identityEvt : Event → Bool
  | Event.loadIdentity _ => true
  | Event.makeIdentity => true
  | Event.storeIdentity _ => true
  | Event.panic Stage.makeIdentity => true
  | Event.panic Stage.storeIdentity => true
  | _ => false

/-- Events that can occur inside variant B's post-connect block. -/
def postConnectEvt : Event → Bool
  | Event.readServerContact => true
  | Event.unmarshalContact => true
  | Event.connectPeer => true
  | Event.registerListener => true
  | Event.sendMessage => true
  | Event.printSendErr => true
  | Event.logSent _ _ _ => true
  | Event.block => true
  | Event.panic Stage.readContact => true
  | Event.panic Stage.unmarshalContact => true
  | Event.panic Stage.connectPeer => true
  | Event.panic Stage.registerListener => true
  | _ => false

/-- Environment in which every external call succeeds except
`StartNetworkFollower`. -/
def envFollowerFail : Env := { envOk with startFollowerOk := false }

/-- Environment with a readable local network definition and no working
certificate or remote endpoint at all. -/
def envLocalNdf : Env := { envOk with certRead := none, download := none }

/-- Environment in which the identity load and the identity store fail. -/
def envStoreFail : Env :=
  { envOk with loadIdentityOk := false, storeIdentityOk := false }

/-- Environment with no local cache, no certificate and no download. -/
def envNoCache : Env :=
  { envOk with ndfLocal := none, certRead := none, download := none }

/-- Environment in which everything succeeds except the final send. -/
def envSendFail : Env := { envOk with sendOk := false }

/-- Environment in which the send fails and returns the zero tuple. -/
def envSendFailZero : Env := { envOk with sendOk := false }

theorem waitTrace_all_postLoad : ∀ l : List Bool,
    (waitTrace l).all postLoadEvt = true
  | [] => rfl
  | b :: rest => by
      cases b <;>
        simp [waitTrace, List.all_cons, postLoadEvt,
          waitTrace_all_postLoad rest]

theorem identityTrace_all_postLoad (e : Env) :
    (identityTrace e).1.all postLoadEvt = true := by
  unfold identityTrace
  split_ifs <;> decide

theorem afterStateA_all_postLoad (e : Env) :
    (afterStateA e).all postLoadEvt = true := by
  unfold afterStateA
  split_ifs <;>
    simp [List.all_cons, List.all_append, identityTrace_all_postLoad,
      waitTrace_all_postLoad, postLoadEvt] <;>
    split <;> simp [postLoadEvt]

theorem postConnectB_all_postLoad (e : Env) :
    (postConnectB e).all postLoadEvt = true := by
  unfold postConnectB
  cases h : e.readContact <;>
    simp [List.all_cons, List.all_append, postLoadEvt] <;>
    split_ifs <;>
    simp [List.all_cons, List.all_append, postLoadEvt] <;>
    split <;> simp [postLoadEvt]

theorem afterStateB_all_postLoad (e : Env) :
    (afterStateB e).all postLoadEvt = true := by
  have hpost := postConnectB_all_postLoad e
  have hid := identityTrace_all_postLoad e
  have hwait := waitTrace_all_postLoad e.healthEvents
  unfold afterStateB
  cases hw : waitUntilConnected e.healthEvents <;>
    split_ifs <;>
      simp_all [List.all_cons, List.all_append, postLoadEvt]

theorem resolveNdf_all_preState (e : Env) :
    (resolveNdf e).1.all preStateEvt = true := by
  unfold resolveNdf
  cases e.ndfLocal with
  | some b => rfl
  | none =>
      cases e.certRead with
      | none => rfl
      | some c =>
          cases e.download with
          | none => rfl
          | some b => rfl

/-- An event whose classifier is false does not occur in a list all of
whose elements satisfy the classifier. -/
theorem not_mem_of_all {p : Event → Bool} {l : List Event}
    (h : l.all p = true) {x : Event} (hx : p x = false) : x ∉ l := by
  intro hmem
  have h2 := List.all_eq_true.mp h x hmem
  rw [hx] at h2
  exact Bool.false_ne_true h2

theorem mem_waitTrace {l : List Bool} {x : Event} (hx : x ∈ waitTrace l) :
    x = Event.panic Stage.timeout ∨ x = Event.connectedOk ∨
      ∃ b, x = Event.logNetworkStatus b := by
  induction l with
  | nil =>
      simp [waitTrace] at hx
      simp [hx]
  | cons b rest ih =>
      rw [waitTrace] at hx
      rcases List.mem_cons.mp hx with h | h
      · exact Or.inr (Or.inr ⟨b, h⟩)
      · revert h
        cases b <;> intro h
        · exact ih h
        · simp at h
          simp [h]

theorem waitTrace_filter_gate : ∀ l : List Bool,
    (waitTrace l).filter isGateEvt =
      if waitUntilConnected l then [Event.connectedOk] else []
  | [] => rfl
  | b :: rest => by
      cases b <;>
        simp [waitTrace, waitUntilConnected, List.filter_cons,
          waitTrace_filter_gate rest, isGateEvt]

theorem identityTrace_filter_gate (e : Env) :
    (identityTrace e).1.filter isGateEvt = [] := by
  unfold identityTrace
  split_ifs <;> decide

theorem identityTrace_filter_c9 (e : Env) :
    (identityTrace e).1.filter isC9Evt = [] := by
  unfold identityTrace
  split_ifs <;> decide

theorem resolveNdf_filter_gate (e : Env) :
    (resolveNdf e).1.filter isGateEvt = [] := by
  unfold resolveNdf
  cases e.ndfLocal with
  | some b => rfl
  | none =>
      cases e.certRead with
      | none => rfl
      | some c =>
          cases e.download with
          | none => rfl
          | some b => rfl

theorem resolveNdf_filter_c9 (e : Env) :
    (resolveNdf e).1.filter isC9Evt = [] := by
  unfold resolveNdf
  cases e.ndfLocal with
  | some b => rfl
  | none =>
      cases e.certRead with
      | none => rfl
      | some c =>
          cases e.download with
          | none => rfl
          | some b => rfl

theorem postConnectB_filter_gate (e : Env) :
    ∃ t, (postConnectB e).filter isGateEvt ++ t =
      [Event.connectPeer, Event.sendMessage] := by
  unfold postConnectB
  cases e.readContact with
  | none => exact ⟨[Event.connectPeer, Event.sendMessage], rfl⟩
  | some d =>
      split_ifs with h1 h2 h3 h4
      · exact ⟨[], by
          simp [List.filter_cons, List.filter_append, isGateEvt]⟩
      · exact ⟨[], by
          simp [List.filter_cons, List.filter_append, isGateEvt]⟩
      · exact ⟨[Event.sendMessage], by
          simp [List.filter_cons, isGateEvt]⟩
      · exact ⟨[Event.sendMessage], by
          simp [List.filter_cons, isGateEvt]⟩
      · exact ⟨[Event.connectPeer, Event.sendMessage], by
          simp [List.filter_cons, isGateEvt]⟩

theorem afterStateA_filter_gate (e : Env) :
    ∃ t, (afterStateA e).filter isGateEvt ++ t =
      [Event.newServer, Event.connectedOk] := by
  have hid := identityTrace_filter_gate e
  unfold afterStateA
  split_ifs with h1 h2 h3 h4 h5 h6
  · exact ⟨[], by
      simp [List.filter_cons, List.filter_append, hid,
        waitTrace_filter_gate, h6, isGateEvt]⟩
  · exact ⟨[Event.connectedOk], by
      simp [List.filter_cons, List.filter_append, hid,
        waitTrace_filter_gate, h6, isGateEvt]⟩
  · exact ⟨[Event.connectedOk], by
      simp [List.filter_cons, List.filter_append, hid, isGateEvt]⟩
  · exact ⟨[Event.newServer, Event.connectedOk], by
      simp [List.filter_cons, List.filter_append, hid, isGateEvt]⟩
  · exact ⟨[Event.newServer, Event.connectedOk], by
      simp [List.filter_cons, List.filter_append, hid, isGateEvt]⟩
  · exact ⟨[Event.newServer, Event.connectedOk], by
      simp [List.filter_cons, List.filter_append, hid, isGateEvt]⟩
  · exact ⟨[Event.newServer, Event.connectedOk], by decide⟩

theorem afterStateB_filter_gate (e : Env) :
    ∃ t, (afterStateB e).filter isGateEvt ++ t =
      [Event.connectedOk, Event.connectPeer, Event.sendMessage] := by
  have hid := identityTrace_filter_gate e
  unfold afterStateB
  split_ifs with h1 h2 h3 h4 h5 h6
  · obtain ⟨t0, ht0⟩ := postConnectB_filter_gate e
    refine ⟨t0, ?_⟩
    simp [List.filter_cons, List.filter_append, hid,
      waitTrace_filter_gate, h5, isGateEvt, List.append_assoc, ht0]
  · exact ⟨[Event.connectedOk, Event.connectPeer, Event.sendMessage], by
      simp [List.filter_cons, List.filter_append, hid,
        waitTrace_filter_gate, h5, isGateEvt]⟩
  · obtain ⟨t0, ht0⟩ := postConnectB_filter_gate e
    refine ⟨t0, ?_⟩
    simp [List.filter_cons, List.filter_append, hid,
      waitTrace_filter_gate, h6, isGateEvt, List.append_assoc, ht0]
  · exact ⟨[Event.connectedOk, Event.connectPeer, Event.sendMessage], by
      simp [List.filter_cons, List.filter_append, hid,
        waitTrace_filter_gate, h6, isGateEvt]⟩
  · exact ⟨[Event.connectedOk, Event.connectPeer, Event.sendMessage], by
      simp [List.filter_cons, List.filter_append, hid, isGateEvt]⟩
  · exact ⟨[Event.connectedOk, Event.connectPeer, Event.sendMessage], by
      simp [List.filter_cons, List.filter_append, hid, isGateEvt]⟩
  · exact ⟨[Event.connectedOk, Event.connectPeer, Event.sendMessage], by
      decide⟩

theorem runA_filter_gate (s : Bool) (e : Env) :
    (runA s e).2.filter isGateEvt = (afterStateA e).filter isGateEvt ∨
      (runA s e).2.filter isGateEvt = [] := by
  unfold runA
  cases s
  · rcases hr : (resolveNdf e).2 with _ | ndf
    · right
      simp [hr, List.filter_cons, resolveNdf_filter_gate, isGateEvt]
    · cases hc : e.newCmixOk
      · right
        simp [hr, hc, List.filter_cons, List.filter_append,
          resolveNdf_filter_gate, isGateEvt]
      · left
        simp [hr, hc, List.filter_cons, List.filter_append,
          resolveNdf_filter_gate, isGateEvt]
  · left
    simp [List.filter_cons, isGateEvt]

theorem runB_filter_gate (s : Bool) (e : Env) :
    (runB s e).2.filter isGateEvt = (afterStateB e).filter isGateEvt ∨
      (runB s e).2.filter isGateEvt = [] := by
  unfold runB
  cases s
  · rcases hr : (resolveNdf e).2 with _ | ndf
    · right
      simp [hr, List.filter_cons, resolveNdf_filter_gate, isGateEvt]
    · cases hc : e.newCmixOk
      · right
        simp [hr, hc, List.filter_cons, List.filter_append,
          resolveNdf_filter_gate, isGateEvt]
      · left
        simp [hr, hc, List.filter_cons, List.filter_append,
          resolveNdf_filter_gate, isGateEvt]
  · left
    simp [List.filter_cons, isGateEvt]

/-- C1: in the `waitUntilConnected` loop, any number of `false` health
values dequeued before the first `true` are merely logged and never
terminate the wait, and the wait resolves successfully exactly when the
first `true` is dequeued — in particular with the buffered queue holding
`false` then `true` before consumption begins.  The trace equation shows
every `false` produces only a log event, the loop ends in success at the
first `true`, and no timeout panic occurs. -/
theorem gate_ignores_false_resolves_on_first_true
    (pre post : List Bool) (h : ∀ b ∈ pre, b = false) :
    waitUntilConnected (pre ++ true :: post) = true ∧
    waitTrace (pre ++ true :: post) =
      pre.map Event.logNetworkStatus ++
        [Event.logNetworkStatus true, Event.connectedOk] := by
  induction pre with
  | nil => simp [waitUntilConnected, waitTrace]
  | cons b rest ih =>
      have hb : b = false := h b (List.mem_cons_self b rest)
      have hrest : ∀ x ∈ rest, x = false :=
        fun x hx => h x (List.mem_cons_of_mem b hx)
      obtain ⟨ih1, ih2⟩ := ih hrest
      subst hb
      refine ⟨?_, ?_⟩
      · simp [waitUntilConnected, ih1]
      · simp [waitTrace, ih2]

theorem gate_ignores_false_resolves_on_first_true_w :
    waitUntilConnected ([false] ++ true :: []) = true ∧
    waitTrace ([false] ++ true :: []) =
      [false].map Event.logNetworkStatus ++
        [Event.logNetworkStatus true, Event.connectedOk] :=
  gate_ignores_false_resolves_on_first_true [false] [] (by decide)

/-- C2 counterexample: in variant A the single-use request server is
started (`single.NewServer`) in a run whose connectivity gate never
resolves successfully — the serving step precedes the gate's resolution,
refuting the claim that no serving step precedes it. -/
theorem server_started_before_gate_cx :
    Event.newServer ∈ (runA true envNoHealth).2 ∧
    Event.connectedOk ∉ (runA true envNoHealth).2 := by decide

/-- C2 amended: in variant B the post-connect action (connecting to the
peer and sending) is executed only after the gate resolves successfully —
among the gate-relevant events of any run, `connectedOk` comes before
`connectPeer` before `sendMessage`; in variant A however the request
server is started before the gate resolves: `newServer` always precedes
`connectedOk` in every run's trace. -/
theorem post_connect_action_order (s : Bool) (e : Env) :
    (∃ t, (runB s e).2.filter isGateEvt ++ t =
      [Event.connectedOk, Event.connectPeer, Event.sendMessage]) ∧
    (∃ t, (runA s e).2.filter isGateEvt ++ t =
      [Event.newServer, Event.connectedOk]) := by
  refine ⟨?_, ?_⟩
  · rcases runB_filter_gate s e with h | h
    · obtain ⟨t, ht⟩ := afterStateB_filter_gate e
      exact ⟨t, by rw [h, ht]⟩
    · exact ⟨[Event.connectedOk, Event.connectPeer, Event.sendMessage],
        by rw [h]; rfl⟩
  · rcases runA_filter_gate s e with h | h
    · obtain ⟨t, ht⟩ := afterStateA_filter_gate e
      exact ⟨t, by rw [h, ht]⟩
    · exact ⟨[Event.newServer, Event.connectedOk], by rw [h]; rfl⟩

theorem preState_not_postLoad {x : Event} (h : preStateEvt x = true) :
    postLoadEvt x = false := by
  cases x <;> try (simp_all [preStateEvt, postLoadEvt]; done)
  rename_i st
  cases st <;> simp_all [preStateEvt, postLoadEvt]

theorem identityTrace_all_identityEvt (e : Env) :
    (identityTrace e).1.all identityEvt = true := by
  unfold identityTrace
  split_ifs <;> decide

theorem postConnectB_all_evt (e : Env) :
    (postConnectB e).all postConnectEvt = true := by
  unfold postConnectB
  cases e.readContact with
  | none => rfl
  | some d =>
      split_ifs <;>
        simp [List.all_cons, List.all_append, postConnectEvt]

theorem countP_isInit_zero_of_postLoad {l : List Event}
    (h : l.all postLoadEvt = true) : l.countP isInit = 0 := by
  refine List.countP_eq_zero.mpr (fun a ha => ?_)
  have h2 := List.all_eq_true.mp h a ha
  intro hIsInit
  cases a <;> simp [isInit] at hIsInit
  simp [postLoadEvt] at h2

theorem runA_not_mem {e : Env} {x : Event} (s : Bool)
    (h1 : x ∉ afterStateA e) (h2 : preStateEvt x = false)
    (h3 : ∀ b, x ≠ Event.statCheck b) (h4 : ∀ b, x ≠ Event.newCmix b)
    (h5 : x ≠ Event.panic Stage.newCmix) :
    x ∉ (runA s e).2 := by
  have hres : x ∉ (resolveNdf e).1 :=
    not_mem_of_all (resolveNdf_all_preState e) h2
  have h1' : (x ∈ afterStateA e) = False := eq_false h1
  have hres' : (x ∈ (resolveNdf e).1) = False := eq_false hres
  have h3' : ∀ b, (x = Event.statCheck b) = False :=
    fun b => eq_false (h3 b)
  have h4' : ∀ b, (x = Event.newCmix b) = False :=
    fun b => eq_false (h4 b)
  have h5' : (x = Event.panic Stage.newCmix) = False := eq_false h5
  intro hx
  unfold runA at hx
  cases s <;>
    rcases hr : (resolveNdf e).2 with _ | ndf <;>
      cases hc : e.newCmixOk <;>
        simp [hr, hc, List.mem_cons, List.mem_append,
          h1', hres', h3', h4', h5'] at hx

theorem runB_not_mem {e : Env} {x : Event} (s : Bool)
    (h1 : x ∉ afterStateB e) (h2 : preStateEvt x = false)
    (h3 : ∀ b, x ≠ Event.statCheck b) (h4 : ∀ b, x ≠ Event.newCmix b)
    (h5 : x ≠ Event.panic Stage.newCmix) :
    x ∉ (runB s e).2 := by
  have hres : x ∉ (resolveNdf e).1 :=
    not_mem_of_all (resolveNdf_all_preState e) h2
  have h1' : (x ∈ afterStateB e) = False := eq_false h1
  have hres' : (x ∈ (resolveNdf e).1) = False := eq_false hres
  have h3' : ∀ b, (x = Event.statCheck b) = False :=
    fun b => eq_false (h3 b)
  have h4' : ∀ b, (x = Event.newCmix b) = False :=
    fun b => eq_false (h4 b)
  have h5' : (x = Event.panic Stage.newCmix) = False := eq_false h5
  intro hx
  unfold runB at hx
  cases s <;>
    rcases hr : (resolveNdf e).2 with _ | ndf <;>
      cases hc : e.newCmixOk <;>
        simp [hr, hc, List.mem_cons, List.mem_append,
          h1', hres', h3', h4', h5'] at hx

theorem runA_mem_afterState {e : Env} {x : Event} {s : Bool}
    (hx : x ∈ (runA s e).2) (h2 : preStateEvt x = false)
    (h3 : ∀ b, x ≠ Event.statCheck b) (h4 : ∀ b, x ≠ Event.newCmix b)
    (h5 : x ≠ Event.panic Stage.newCmix) :
    x ∈ afterStateA e := by
  have hres : x ∉ (resolveNdf e).1 :=
    not_mem_of_all (resolveNdf_all_preState e) h2
  have hres' : (x ∈ (resolveNdf e).1) = False := eq_false hres
  have h3' : ∀ b, (x = Event.statCheck b) = False :=
    fun b => eq_false (h3 b)
  have h4' : ∀ b, (x = Event.newCmix b) = False :=
    fun b => eq_false (h4 b)
  have h5' : (x = Event.panic Stage.newCmix) = False := eq_false h5
  unfold runA at hx
  cases s <;>
    rcases hr : (resolveNdf e).2 with _ | ndf <;>
      cases hc : e.newCmixOk <;>
        simp [hr, hc, List.mem_cons, List.mem_append,
          hres', h3', h4', h5'] at hx <;>
        exact hx

theorem runB_mem_afterState {e : Env} {x : Event} {s : Bool}
    (hx : x ∈ (runB s e).2) (h2 : preStateEvt x = false)
    (h3 : ∀ b, x ≠ Event.statCheck b) (h4 : ∀ b, x ≠ Event.newCmix b)
    (h5 : x ≠ Event.panic Stage.newCmix) :
    x ∈ afterStateB e := by
  have hres : x ∉ (resolveNdf e).1 :=
    not_mem_of_all (resolveNdf_all_preState e) h2
  have hres' : (x ∈ (resolveNdf e).1) = False := eq_false hres
  have h3' : ∀ b, (x = Event.statCheck b) = False :=
    fun b => eq_false (h3 b)
  have h4' : ∀ b, (x = Event.newCmix b) = False :=
    fun b => eq_false (h4 b)
  have h5' : (x = Event.panic Stage.newCmix) = False := eq_false h5
  unfold runB at hx
  cases s <;>
    rcases hr : (resolveNdf e).2 with _ | ndf <;>
      cases hc : e.newCmixOk <;>
        simp [hr, hc, List.mem_cons, List.mem_append,
          hres', h3', h4', h5'] at hx <;>
        exact hx

theorem runA_reaches_afterState {e : Env} {s : Bool} {x : Event}
    (hxmem : x ∈ (runA s e).2) (hxpost : postLoadEvt x = true) :
    ∀ y ∈ afterStateA e, y ∈ (runA s e).2 := by
  have hres : x ∉ (resolveNdf e).1 := by
    intro hcon
    have hps := List.all_eq_true.mp (resolveNdf_all_preState e) x hcon
    rw [preState_not_postLoad hps] at hxpost
    exact Bool.false_ne_true hxpost
  have hres' : (x ∈ (resolveNdf e).1) = False := eq_false hres
  intro y hy
  unfold runA at hxmem ⊢
  cases s
  · rcases hr : (resolveNdf e).2 with _ | ndf
    · simp [hr, List.mem_cons, hres'] at hxmem
      rw [hxmem] at hxpost
      exact absurd hxpost (by decide)
    · cases hc : e.newCmixOk
      · simp [hr, hc, List.mem_cons, List.mem_append, hres'] at hxmem
        rcases hxmem with h | h | h <;> rw [h] at hxpost <;>
          simp [postLoadEvt] at hxpost
      · simp [hr, hc, List.mem_cons, List.mem_append]
        tauto
  · simp [List.mem_cons]
    tauto

theorem runB_reaches_afterState {e : Env} {s : Bool} {x : Event}
    (hxmem : x ∈ (runB s e).2) (hxpost : postLoadEvt x = true) :
    ∀ y ∈ afterStateB e, y ∈ (runB s e).2 := by
  have hres : x ∉ (resolveNdf e).1 := by
    intro hcon
    have hps := List.all_eq_true.mp (resolveNdf_all_preState e) x hcon
    rw [preState_not_postLoad hps] at hxpost
    exact Bool.false_ne_true hxpost
  have hres' : (x ∈ (resolveNdf e).1) = False := eq_false hres
  intro y hy
  unfold runB at hxmem ⊢
  cases s
  · rcases hr : (resolveNdf e).2 with _ | ndf
    · simp [hr, List.mem_cons, hres'] at hxmem
      rw [hxmem] at hxpost
      exact absurd hxpost (by decide)
    · cases hc : e.newCmixOk
      · simp [hr, hc, List.mem_cons, List.mem_append, hres'] at hxmem
        rcases hxmem with h | h | h <;> rw [h] at hxpost <;>
          simp [postLoadEvt] at hxpost
      · simp [hr, hc, List.mem_cons, List.mem_append]
        tauto
  · simp [List.mem_cons]
    tauto

theorem afterStateA_follower_fail (e : Env)
    (h : e.startFollowerOk = false) :
    Event.addHealthCallback ∉ afterStateA e ∧
    Event.connectedOk ∉ afterStateA e ∧
    (Event.startFollower ∈ afterStateA e →
      Event.panic Stage.follower ∈ afterStateA e) := by
  have hid1 : Event.addHealthCallback ∉ (identityTrace e).1 :=
    not_mem_of_all (identityTrace_all_identityEvt e) rfl
  have hid2 : Event.connectedOk ∉ (identityTrace e).1 :=
    not_mem_of_all (identityTrace_all_identityEvt e) rfl
  have hid3 : Event.startFollower ∉ (identityTrace e).1 :=
    not_mem_of_all (identityTrace_all_identityEvt e) rfl
  unfold afterStateA
  rw [h]
  split_ifs <;> simp_all [List.mem_cons, List.mem_append]

theorem afterStateB_follower_fail (e : Env)
    (h : e.startFollowerOk = false)
    (hmem : Event.startFollower ∈ afterStateB e) :
    Event.printFollowerErr ∈ afterStateB e ∧
    Event.addHealthCallback ∈ afterStateB e := by
  have hid : Event.startFollower ∉ (identityTrace e).1 :=
    not_mem_of_all (identityTrace_all_identityEvt e) rfl
  unfold afterStateB at hmem ⊢
  rw [h] at hmem ⊢
  split_ifs at hmem ⊢ <;> simp_all [List.mem_cons, List.mem_append]

theorem panic_follower_not_mem_afterStateB (e : Env) :
    Event.panic Stage.follower ∉ afterStateB e := by
  have hid : Event.panic Stage.follower ∉ (identityTrace e).1 :=
    not_mem_of_all (identityTrace_all_identityEvt e) (by decide)
  have hpost : Event.panic Stage.follower ∉ postConnectB e :=
    not_mem_of_all (postConnectB_all_evt e) (by decide)
  have hwait : Event.panic Stage.follower ∉ waitTrace e.healthEvents := by
    intro hx
    rcases mem_waitTrace hx with hh | hh | ⟨b, hh⟩ <;> simp at hh
  unfold afterStateB
  split_ifs <;> simp_all [List.mem_cons, List.mem_append]

/-- C3 counterexample: in variant B a `StartNetworkFollower` error does not
abort the process — the error is merely printed and the run proceeds to the
connectivity wait (the health callback is registered and the gate even
resolves successfully); no follower panic occurs.  This refutes the claim
that in both variants a follower-start error is fatal and nothing later
runs. -/
theorem follower_error_not_fatal_in_b_cx :
    Event.printFollowerErr ∈ (runB true envFollowerFail).2 ∧
    Event.addHealthCallback ∈ (runB true envFollowerFail).2 ∧
    Event.connectedOk ∈ (runB true envFollowerFail).2 ∧
    Event.panic Stage.follower ∉ (runB true envFollowerFail).2 := by
  decide

/-- C3 amended: when `StartNetworkFollower` fails, variant A aborts fatally
(the run never registers the health callback, never resolves the gate, and
whenever the follower start appears in the trace the follower panic does
too), while variant B only prints the error and proceeds: whenever its
follower start appears, the error print and the health-callback
registration appear as well and no follower panic ever occurs. -/
theorem follower_error_fatal_only_in_variant_a (s : Bool) (e : Env)
    (h : e.startFollowerOk = false) :
    Event.addHealthCallback ∉ (runA s e).2 ∧
    Event.connectedOk ∉ (runA s e).2 ∧
    (Event.startFollower ∈ (runA s e).2 →
      Event.panic Stage.follower ∈ (runA s e).2) ∧
    (Event.startFollower ∈ (runB s e).2 →
      Event.printFollowerErr ∈ (runB s e).2 ∧
      Event.addHealthCallback ∈ (runB s e).2 ∧
      Event.panic Stage.follower ∉ (runB s e).2) := by
  obtain ⟨ha1, ha2, ha3⟩ := afterStateA_follower_fail e h
  refine ⟨?_, ?_, ?_, ?_⟩
  · exact runA_not_mem s ha1 rfl (fun b hb => nomatch hb)
      (fun b hb => nomatch hb) (fun hb => nomatch hb)
  · exact runA_not_mem s ha2 rfl (fun b hb => nomatch hb)
      (fun b hb => nomatch hb) (fun hb => nomatch hb)
  · intro hmem
    have hA := runA_mem_afterState hmem rfl (fun b hb => nomatch hb)
      (fun b hb => nomatch hb) (fun hb => nomatch hb)
    exact runA_reaches_afterState hmem rfl _ (ha3 hA)
  · intro hmem
    have hB := runB_mem_afterState hmem rfl (fun b hb => nomatch hb)
      (fun b hb => nomatch hb) (fun hb => nomatch hb)
    obtain ⟨hp1, hp2⟩ := afterStateB_follower_fail e h hB
    refine ⟨runB_reaches_afterState hmem rfl _ hp1,
      runB_reaches_afterState hmem rfl _ hp2, ?_⟩
    exact runB_not_mem s (panic_follower_not_mem_afterStateB e)
      (by decide) (fun b hb => nomatch hb) (fun b hb => nomatch hb)
      (by decide)

theorem follower_error_fatal_only_in_variant_a_w :
    Event.addHealthCallback ∉ (runA true envFollowerFail).2 ∧
    Event.connectedOk ∉ (runA true envFollowerFail).2 ∧
    (Event.startFollower ∈ (runA true envFollowerFail).2 →
      Event.panic Stage.follower ∈ (runA true envFollowerFail).2) ∧
    (Event.startFollower ∈ (runB true envFollowerFail).2 →
      Event.printFollowerErr ∈ (runB true envFollowerFail).2 ∧
      Event.addHealthCallback ∈ (runB true envFollowerFail).2 ∧
      Event.panic Stage.follower ∉ (runB true envFollowerFail).2) :=
  follower_error_fatal_only_in_variant_a true envFollowerFail rfl

/-- C4: when the local network-definition file is present and non-empty,
both variants use its bytes unmodified for state initialization (the
`newCmix` event carries exactly those bytes) and never read the
certificate nor attempt the remote download-and-verify, in any run and
regardless of the remote URL. -/
theorem local_ndf_short_circuits_remote (e : Env) (b : List Nat)
    (h1 : e.ndfLocal = some b) (h2 : b ≠ []) :
    (∀ s, Event.readCert ∉ (runA s e).2 ∧
      Event.downloadNdf ∉ (runA s e).2 ∧
      Event.readCert ∉ (runB s e).2 ∧
      Event.downloadNdf ∉ (runB s e).2) ∧
    Event.newCmix b ∈ (runA false e).2 ∧
    Event.newCmix b ∈ (runB false e).2 := by
  have hres : resolveNdf e = ([Event.readNdf], some b) := by
    simp [resolveNdf, h1]
  have hrcA : Event.readCert ∉ afterStateA e :=
    not_mem_of_all (afterStateA_all_postLoad e) rfl
  have hdlA : Event.downloadNdf ∉ afterStateA e :=
    not_mem_of_all (afterStateA_all_postLoad e) rfl
  have hrcB : Event.readCert ∉ afterStateB e :=
    not_mem_of_all (afterStateB_all_postLoad e) rfl
  have hdlB : Event.downloadNdf ∉ afterStateB e :=
    not_mem_of_all (afterStateB_all_postLoad e) rfl
  refine ⟨fun s => ⟨?_, ?_, ?_, ?_⟩, ?_, ?_⟩
  · unfold runA
    cases s <;> cases hc : e.newCmixOk <;>
      simp [hres, hc, List.mem_cons, List.mem_append, hrcA]
  · unfold runA
    cases s <;> cases hc : e.newCmixOk <;>
      simp [hres, hc, List.mem_cons, List.mem_append, hdlA]
  · unfold runB
    cases s <;> cases hc : e.newCmixOk <;>
      simp [hres, hc, List.mem_cons, List.mem_append, hrcB]
  · unfold runB
    cases s <;> cases hc : e.newCmixOk <;>
      simp [hres, hc, List.mem_cons, List.mem_append, hdlB]
  · unfold runA
    cases hc : e.newCmixOk <;>
      simp [hres, hc, List.mem_cons, List.mem_append]
  · unfold runB
    cases hc : e.newCmixOk <;>
      simp [hres, hc, List.mem_cons, List.mem_append]

theorem local_ndf_short_circuits_remote_w :
    ((∀ s, Event.readCert ∉ (runA s envLocalNdf).2 ∧
      Event.downloadNdf ∉ (runA s envLocalNdf).2 ∧
      Event.readCert ∉ (runB s envLocalNdf).2 ∧
      Event.downloadNdf ∉ (runB s envLocalNdf).2) ∧
    Event.newCmix [7] ∈ (runA false envLocalNdf).2 ∧
    Event.newCmix [7] ∈ (runB false envLocalNdf).2) :=
  local_ndf_short_circuits_remote envLocalNdf [7] rfl (by decide)

/-- C5: in both program variants, when persisted state already exists the
bootstrap skips initialization entirely — the run reports the state still
present, never reads or downloads a network definition and performs zero
`NewCmix` calls — and across two consecutive runs of either variant with
the same path (the first starting without state and succeeding)
initialization happens exactly once. -/
theorem state_init_skipped_when_present (e1 e2 : Env) (b : List Nat)
    (h1 : e1.ndfLocal = some b) (h2 : e1.newCmixOk = true) :
    (∀ e : Env, (runA true e).1 = true ∧
      Event.readNdf ∉ (runA true e).2 ∧
      Event.readCert ∉ (runA true e).2 ∧
      Event.downloadNdf ∉ (runA true e).2 ∧
      (runA true e).2.countP isInit = 0) ∧
    (runA false e1).1 = true ∧
    (runA false e1).2.countP isInit +
      (runA (runA false e1).1 e2).2.countP isInit = 1 ∧
    (∀ e : Env, (runB true e).1 = true ∧
      Event.readNdf ∉ (runB true e).2 ∧
      Event.readCert ∉ (runB true e).2 ∧
      Event.downloadNdf ∉ (runB true e).2 ∧
      (runB true e).2.countP isInit = 0) ∧
    (runB false e1).1 = true ∧
    (runB false e1).2.countP isInit +
      (runB (runB false e1).1 e2).2.countP isInit = 1 := by
  have hskipA : ∀ e : Env, (runA true e).1 = true ∧
      Event.readNdf ∉ (runA true e).2 ∧
      Event.readCert ∉ (runA true e).2 ∧
      Event.downloadNdf ∉ (runA true e).2 ∧
      (runA true e).2.countP isInit = 0 := by
    intro e
    have h3 : Event.readNdf ∉ afterStateA e :=
      not_mem_of_all (afterStateA_all_postLoad e) rfl
    have h4 : Event.readCert ∉ afterStateA e :=
      not_mem_of_all (afterStateA_all_postLoad e) rfl
    have h5 : Event.downloadNdf ∉ afterStateA e :=
      not_mem_of_all (afterStateA_all_postLoad e) rfl
    have h6 : (afterStateA e).countP isInit = 0 :=
      countP_isInit_zero_of_postLoad (afterStateA_all_postLoad e)
    refine ⟨by simp [runA], ?_, ?_, ?_, ?_⟩
    · simp [runA, List.mem_cons, h3]
    · simp [runA, List.mem_cons, h4]
    · simp [runA, List.mem_cons, h5]
    · simp [runA, List.countP_cons, h6, isInit]
  have hskipB : ∀ e : Env, (runB true e).1 = true ∧
      Event.readNdf ∉ (runB true e).2 ∧
      Event.readCert ∉ (runB true e).2 ∧
      Event.downloadNdf ∉ (runB true e).2 ∧
      (runB true e).2.countP isInit = 0 := by
    intro e
    have h3 : Event.readNdf ∉ afterStateB e :=
      not_mem_of_all (afterStateB_all_postLoad e) rfl
    have h4 : Event.readCert ∉ afterStateB e :=
      not_mem_of_all (afterStateB_all_postLoad e) rfl
    have h5 : Event.downloadNdf ∉ afterStateB e :=
      not_mem_of_all (afterStateB_all_postLoad e) rfl
    have h6 : (afterStateB e).countP isInit = 0 :=
      countP_isInit_zero_of_postLoad (afterStateB_all_postLoad e)
    refine ⟨by simp [runB], ?_, ?_, ?_, ?_⟩
    · simp [runB, List.mem_cons, h3]
    · simp [runB, List.mem_cons, h4]
    · simp [runB, List.mem_cons, h5]
    · simp [runB, List.countP_cons, h6, isInit]
  have hres : resolveNdf e1 = ([Event.readNdf], some b) := by
    simp [resolveNdf, h1]
  have hstateA : (runA false e1).1 = true := by
    simp [runA, hres, h2]
  have hstateB : (runB false e1).1 = true := by
    simp [runB, hres, h2]
  have h7A : (afterStateA e1).countP isInit = 0 :=
    countP_isInit_zero_of_postLoad (afterStateA_all_postLoad e1)
  have h7B : (afterStateB e1).countP isInit = 0 :=
    countP_isInit_zero_of_postLoad (afterStateB_all_postLoad e1)
  have h8A := (hskipA e2).2.2.2.2
  have h8B := (hskipB e2).2.2.2.2
  refine ⟨hskipA, hstateA, ?_, hskipB, hstateB, ?_⟩
  · rw [hstateA]
    simp [runA, hres, h2, List.countP_cons, List.countP_append, h7A,
      h8A, isInit]
    intro a ha
    have hp := List.all_eq_true.mp (afterStateA_all_postLoad e2) a ha
    cases a <;> first
      | rfl
      | simp [postLoadEvt] at hp
  · rw [hstateB]
    simp [runB, hres, h2, List.countP_cons, List.countP_append, h7B,
      h8B, isInit]
    intro a ha
    have hp := List.all_eq_true.mp (afterStateB_all_postLoad e2) a ha
    cases a <;> first
      | rfl
      | simp [postLoadEvt] at hp

theorem state_init_skipped_when_present_w :
    (∀ e : Env, (runA true e).1 = true ∧
      Event.readNdf ∉ (runA true e).2 ∧
      Event.readCert ∉ (runA true e).2 ∧
      Event.downloadNdf ∉ (runA true e).2 ∧
      (runA true e).2.countP isInit = 0) ∧
    (runA false envOk).1 = true ∧
    (runA false envOk).2.countP isInit +
      (runA (runA false envOk).1 envOk).2.countP isInit = 1 ∧
    (∀ e : Env, (runB true e).1 = true ∧
      Event.readNdf ∉ (runB true e).2 ∧
      Event.readCert ∉ (runB true e).2 ∧
      Event.downloadNdf ∉ (runB true e).2 ∧
      (runB true e).2.countP isInit = 0) ∧
    (runB false envOk).1 = true ∧
    (runB false envOk).2.countP isInit +
      (runB (runB false envOk).1 envOk).2.countP isInit = 1 :=
  state_init_skipped_when_present envOk envOk [7] rfl rfl

/-- C6: both variants first attempt to load the reception identity under
the constant storage key; when loading fails a new identity is generated
and persisted under the same key before any further step, and when that
persistence fails the run ends in the store panic — the login never
happens and the process never reaches its serving/blocking stage, so an
unpersisted identity is never used. -/
theorem identity_load_then_create_persist (e : Env)
    (h2 : e.loadIdentityOk = false) (h3 : e.makeIdentityOk = true) :
    (identityTrace e).1.take 1 = [Event.loadIdentity identityStorageKey] ∧
    (e.storeIdentityOk = true →
      identityTrace e =
        ([Event.loadIdentity identityStorageKey, Event.makeIdentity,
          Event.storeIdentity identityStorageKey], true)) ∧
    (e.storeIdentityOk = false →
      identityTrace e =
        ([Event.loadIdentity identityStorageKey, Event.makeIdentity,
          Event.storeIdentity identityStorageKey,
          Event.panic Stage.storeIdentity], false) ∧
      Event.login ∉ (runA true e).2 ∧ Event.block ∉ (runA true e).2 ∧
      Event.login ∉ (runB true e).2) := by
  refine ⟨?_, ?_, ?_⟩
  · cases hs : e.storeIdentityOk <;>
      simp [identityTrace, h2, h3, hs]
  · intro hs
    simp [identityTrace, h2, h3, hs]
  · intro hs
    have hid : identityTrace e =
        ([Event.loadIdentity identityStorageKey, Event.makeIdentity,
          Event.storeIdentity identityStorageKey,
          Event.panic Stage.storeIdentity], false) := by
      simp [identityTrace, h2, h3, hs]
    refine ⟨hid, ?_, ?_, ?_⟩
    · unfold runA afterStateA
      rw [hid]
      cases hl : e.loadCmixOk <;>
        simp [hl, List.mem_cons, List.mem_append]
    · unfold runA afterStateA
      rw [hid]
      cases hl : e.loadCmixOk <;>
        simp [hl, List.mem_cons, List.mem_append]
    · unfold runB afterStateB
      rw [hid]
      cases hl : e.loadCmixOk <;>
        simp [hl, List.mem_cons, List.mem_append]

theorem identity_load_then_create_persist_w :
    (identityTrace envStoreFail).1.take 1 =
      [Event.loadIdentity identityStorageKey] ∧
    (envStoreFail.storeIdentityOk = true →
      identityTrace envStoreFail =
        ([Event.loadIdentity identityStorageKey, Event.makeIdentity,
          Event.storeIdentity identityStorageKey], true)) ∧
    (envStoreFail.storeIdentityOk = false →
      identityTrace envStoreFail =
        ([Event.loadIdentity identityStorageKey, Event.makeIdentity,
          Event.storeIdentity identityStorageKey,
          Event.panic Stage.storeIdentity], false) ∧
      Event.login ∉ (runA true envStoreFail).2 ∧
      Event.block ∉ (runA true envStoreFail).2 ∧
      Event.login ∉ (runB true envStoreFail).2) :=
  identity_load_then_create_persist envStoreFail rfl rfl

/-- C7: with no local network-definition cache, a missing certificate is
fatal before any download is attempted, a failing download-and-verify is
fatal with no retry (each produces exactly the panic-terminated trace
shown), and state initialization only ever receives bytes that the
verified download produced. -/
theorem remote_ndf_verification_fatal (e : Env)
    (h1 : e.ndfLocal = none) :
    (e.certRead = none →
      (runA false e).2 = [Event.statCheck false, Event.readNdf,
        Event.logNdfMissing, Event.readCert,
        Event.panic Stage.readCert]) ∧
    (∀ c, e.certRead = some c → e.download = none →
      (runA false e).2 = [Event.statCheck false, Event.readNdf,
        Event.logNdfMissing, Event.readCert, Event.downloadNdf,
        Event.panic Stage.download]) ∧
    (∀ b, Event.newCmix b ∈ (runA false e).2 → e.download = some b) := by
  refine ⟨?_, ?_, ?_⟩
  · intro hc
    have hres : resolveNdf e =
        ([Event.readNdf, Event.logNdfMissing, Event.readCert,
          Event.panic Stage.readCert], none) := by
      simp [resolveNdf, h1, hc]
    simp [runA, hres]
  · intro c hc hd
    have hres : resolveNdf e =
        ([Event.readNdf, Event.logNdfMissing, Event.readCert,
          Event.downloadNdf, Event.panic Stage.download], none) := by
      simp [resolveNdf, h1, hc, hd]
    simp [runA, hres]
  · intro b hb
    have hnm : Event.newCmix b ∉ afterStateA e :=
      not_mem_of_all (afterStateA_all_postLoad e) rfl
    rcases hcert : e.certRead with _ | c
    · have hres : resolveNdf e =
          ([Event.readNdf, Event.logNdfMissing, Event.readCert,
            Event.panic Stage.readCert], none) := by
        simp [resolveNdf, h1, hcert]
      rw [runA] at hb
      simp [hres, List.mem_cons] at hb
    · rcases hdl : e.download with _ | d
      · have hres : resolveNdf e =
            ([Event.readNdf, Event.logNdfMissing, Event.readCert,
              Event.downloadNdf, Event.panic Stage.download], none) := by
          simp [resolveNdf, h1, hcert, hdl]
        rw [runA] at hb
        simp [hres, List.mem_cons] at hb
      · have hres : resolveNdf e =
            ([Event.readNdf, Event.logNdfMissing, Event.readCert,
              Event.downloadNdf], some d) := by
          simp [resolveNdf, h1, hcert, hdl]
        rw [runA] at hb
        cases hcx : e.newCmixOk <;>
          simp [hres, hcx, List.mem_cons, List.mem_append, hnm] at hb <;>
          exact congrArg some hb.symm

theorem remote_ndf_verification_fatal_w :
    (envNoCache.certRead = none →
      (runA false envNoCache).2 = [Event.statCheck false, Event.readNdf,
        Event.logNdfMissing, Event.readCert,
        Event.panic Stage.readCert]) ∧
    (∀ c, envNoCache.certRead = some c → envNoCache.download = none →
      (runA false envNoCache).2 = [Event.statCheck false, Event.readNdf,
        Event.logNdfMissing, Event.readCert, Event.downloadNdf,
        Event.panic Stage.download]) ∧
    (∀ b, Event.newCmix b ∈ (runA false envNoCache).2 →
      envNoCache.download = some b) :=
  remote_ndf_verification_fatal envNoCache rfl

/-- C8: in the direct-channel sender, once the channel is established and
the listener registered, a failed send is non-fatal: the error is only
printed, the run continues through the send log to the indefinite block,
and no panic of any stage occurs in the post-connect block. -/
theorem send_failure_nonfatal (e : Env) (d : List Nat)
    (h1 : e.readContact = some d) (h2 : e.unmarshalOk = true)
    (h3 : e.connectOk = true) (h4 : e.registerOk = true)
    (h5 : e.sendOk = false) :
    postConnectB e = [Event.readServerContact, Event.unmarshalContact,
      Event.connectPeer, Event.registerListener, Event.sendMessage,
      Event.printSendErr,
      Event.logSent e.sendRet.1 e.sendRet.2.1 e.sendRet.2.2,
      Event.block] ∧
    (∀ st, Event.panic st ∉ postConnectB e) := by
  have heq : postConnectB e = [Event.readServerContact,
      Event.unmarshalContact, Event.connectPeer, Event.registerListener,
      Event.sendMessage, Event.printSendErr,
      Event.logSent e.sendRet.1 e.sendRet.2.1 e.sendRet.2.2,
      Event.block] := by
    simp [postConnectB, h1, h2, h3, h4, h5]
  refine ⟨heq, fun st => ?_⟩
  rw [heq]
  simp [List.mem_cons]

theorem send_failure_nonfatal_w :
    postConnectB envSendFail = [Event.readServerContact,
      Event.unmarshalContact, Event.connectPeer, Event.registerListener,
      Event.sendMessage, Event.printSendErr,
      Event.logSent envSendFail.sendRet.1 envSendFail.sendRet.2.1
        envSendFail.sendRet.2.2,
      Event.block] ∧
    (∀ st, Event.panic st ∉ postConnectB envSendFail) :=
  send_failure_nonfatal envSendFail [3] rfl rfl rfl rfl rfl

/-- C9: in the server variant the contact descriptor is written on every
run that reaches a successful login — with pre-existing state and a
pre-existing identity included — immediately after the login and before
the network follower is started or connectivity confirmed (among the
login, contact-write, follower-start and gate events the first two are
always `login` then `writeContact`); the write helper replaces any
previous contents of the contact file. -/
theorem contact_written_every_run (s : Bool) (e : Env)
    (h0 : s = true ∨ ((∃ b, e.ndfLocal = some b) ∧ e.newCmixOk = true))
    (h1 : e.loadCmixOk = true)
    (h2 : e.loadIdentityOk = true ∨
      (e.makeIdentityOk = true ∧ e.storeIdentityOk = true))
    (h3 : e.loginOk = true) :
    Event.writeContact ∈ (runA s e).2 ∧
    ((runA s e).2.filter isC9Evt).take 2 =
      [Event.login, Event.writeContact] ∧
    (∀ p c, writeContactFile p c = some c) := by
  have hidt : (identityTrace e).2 = true := by
    rcases h2 with h | ⟨hm, hs⟩
    · simp [identityTrace, h]
    · unfold identityTrace
      split_ifs <;> simp_all
  have hkey : ((afterStateA e).filter isC9Evt).take 2 =
      [Event.login, Event.writeContact] ∧
      Event.writeContact ∈ afterStateA e := by
    unfold afterStateA
    simp [h1, hidt, h3, List.filter_cons, List.filter_append,
      identityTrace_filter_c9, isC9Evt, List.mem_cons, List.mem_append]
  refine ⟨?_, ?_, fun p c => rfl⟩
  · rcases h0 with hs0 | ⟨⟨b, hb⟩, hcx⟩
    · subst hs0
      simp [runA, List.mem_cons, hkey.2]
    · have hres : resolveNdf e = ([Event.readNdf], some b) := by
        simp [resolveNdf, hb]
      cases s <;>
        simp [runA, hres, hcx, List.mem_cons, List.mem_append, hkey.2]
  · rcases h0 with hs0 | ⟨⟨b, hb⟩, hcx⟩
    · subst hs0
      simp [runA, List.filter_cons, isC9Evt, hkey.1]
    · have hres : resolveNdf e = ([Event.readNdf], some b) := by
        simp [resolveNdf, hb]
      cases s <;>
        simp [runA, hres, hcx, List.filter_cons, List.filter_append,
          isC9Evt, hkey.1]

theorem contact_written_every_run_w :
    Event.writeContact ∈ (runA true envOk).2 ∧
    ((runA true envOk).2.filter isC9Evt).take 2 =
      [Event.login, Event.writeContact] ∧
    (∀ p c, writeContactFile p c = some c) :=
  contact_written_every_run true envOk (Or.inl rfl) rfl (Or.inl rfl) rfl

/-- C10: in the direct-channel sender with a failed send returning the
zero tuple, the run still executes the success log with exactly the
returned (zero) round identifiers, message id and timestamp, performs the
send exactly once (no retry), never panics in the post-connect block, and
its last step is the indefinite block. -/
theorem send_error_still_logs_and_blocks (e : Env) (d : List Nat)
    (h1 : e.readContact = some d) (h2 : e.unmarshalOk = true)
    (h3 : e.connectOk = true) (h4 : e.registerOk = true)
    (h5 : e.sendOk = false) (h6 : e.sendRet = (0, 0, 0)) :
    Event.logSent 0 0 0 ∈ postConnectB e ∧
    Event.printSendErr ∈ postConnectB e ∧
    (postConnectB e).countP isSendEvt = 1 ∧
    (postConnectB e).getLast? = some Event.block ∧
    (∀ st, Event.panic st ∉ postConnectB e) := by
  have heq : postConnectB e = [Event.readServerContact,
      Event.unmarshalContact, Event.connectPeer, Event.registerListener,
      Event.sendMessage, Event.printSendErr, Event.logSent 0 0 0,
      Event.block] := by
    simp [postConnectB, h1, h2, h3, h4, h5, h6]
  rw [heq]
  refine ⟨by simp, by simp, by decide, by decide, fun st => ?_⟩
  simp [List.mem_cons]

theorem send_error_still_logs_and_blocks_w :
    Event.logSent 0 0 0 ∈ postConnectB envSendFailZero ∧
    Event.printSendErr ∈ postConnectB envSendFailZero ∧
    (postConnectB envSendFailZero).countP isSendEvt = 1 ∧
    (postConnectB envSendFailZero).getLast? = some Event.block ∧
    (∀ st, Event.panic st ∉ postConnectB envSendFailZero) :=
  send_error_still_logs_and_blocks envSendFailZero [3] rfl rfl rfl rfl
    rfl rfl
